import Mathlib

/-!
Shallow embedding of the repository's two scripts:
`circuitbreaker_pattern.py` (class `CircuitBreaker`) and
`fault_tolerance_no_outage.py` (`timeout` context manager and
`fetch_and_process_data`).  Wall-clock instants and durations are
modelled as rationals; the protected operation is an explicit
outcome value supplied per call.
-/

namespace CircuitBreakerPattern

/-- Breaker states: the Python strings "CLOSED", "OPEN", "HALF-OPEN"
stored in `self.state`. -/
inductive CBState
  | CLOSED
  | OPEN
  | HALFOPEN
deriving DecidableEq, Repr

/-- The mutable fields of the Python `CircuitBreaker` object together with
its constructor-time configuration (`__init__`, lines 5-10). -/
structure CircuitBreaker where
  failure_threshold : Nat
  recovery_timeout : ℚ
  failure_count : Nat
  last_failure_time : Option ℚ
  state : CBState
deriving DecidableEq, Repr

/-- `CircuitBreaker.__init__` (lines 5-10). -/
def CircuitBreaker.init (failure_threshold : Nat) (recovery_timeout : ℚ) :
    CircuitBreaker :=
  { failure_threshold := failure_threshold
    recovery_timeout := recovery_timeout
    failure_count := 0
    last_failure_time := none
    state := CBState.CLOSED }

/-- `CircuitBreaker._record_failure` (lines 27-31): increment the counter,
stamp the failure time, and trip to OPEN once the threshold is reached. -/
def CircuitBreaker.record_failure (cb : CircuitBreaker) (now : ℚ) :
    CircuitBreaker :=
  { cb with
    failure_count := cb.failure_count + 1
    last_failure_time := some now
    state :=
      if cb.failure_count + 1 ≥ cb.failure_threshold then CBState.OPEN
      else cb.state }

/-- `CircuitBreaker._reset` (lines 33-35). -/
def CircuitBreaker.reset (cb : CircuitBreaker) : CircuitBreaker :=
  { cb with failure_count := 0, state := CBState.CLOSED }

/-- The gate at the top of `call` (lines 13-17): in OPEN state, either move
to HALF-OPEN when the recovery timeout has strictly elapsed, or block the
call (`none`, the raised "Circuit is OPEN. Call blocked." exception).
In the OPEN state `last_failure_time` is always set in any reachable
breaker; `getD 0` stands for the (unreachable) `None` arithmetic. -/
def CircuitBreaker.gateCheck (cb : CircuitBreaker) (now : ℚ) :
    Option CircuitBreaker :=
  if cb.state = CBState.OPEN then
    if now - cb.last_failure_time.getD 0 > cb.recovery_timeout then
      some { cb with state := CBState.HALFOPEN }
    else
      none
  else
    some cb

/-- Observable outcome of one `call`: the operation's value, the
operation's re-raised error, or the synthesized circuit-open rejection. -/
inductive CBResult (α ε : Type)
  | ok (v : α)
  | err (e : ε)
  | blocked
deriving DecidableEq, Repr

/-- `CircuitBreaker.call` (lines 12-25): run the gate; when allowed, invoke
the operation, reset on success, record and re-raise on failure.  The
operation's outcome for this invocation is the `op` argument. -/
def CircuitBreaker.call {α ε : Type} (cb : CircuitBreaker) (now : ℚ)
    (op : Except ε α) : CBResult α ε × CircuitBreaker :=
  match cb.gateCheck now with
  | none => (CBResult.blocked, cb)
  | some cb1 =>
    match op with
    | Except.ok v => (CBResult.ok v, cb1.reset)
    | Except.error e => (CBResult.err e, cb1.record_failure now)

/-- Breaker states reachable from a freshly constructed
`CircuitBreaker(ft, rt)` by any finite sequence of completed `call`s, at
arbitrary times, with arbitrarily succeeding or failing operations. -/
inductive Reachable (ft : Nat) (rt : ℚ) : CircuitBreaker → Prop
  | init : Reachable ft rt (CircuitBreaker.init ft rt)
  | step {cb : CircuitBreaker} {α ε : Type} (now : ℚ) (op : Except ε α) :
      Reachable ft rt cb → Reachable ft rt (cb.call now op).2

/-- Structural invariant of every reachable breaker: the state after a
completed `call` is never HALF-OPEN; in OPEN state the failure counter has
reached the threshold and a failure time is recorded; in CLOSED state the
counter is below the threshold (or zero, when the threshold is zero); the
configured threshold is never mutated. -/
theorem reachable_invariant (ft : Nat) (rt : ℚ) (cb : CircuitBreaker)
    (h : Reachable ft rt cb) :
    cb.state ≠ CBState.HALFOPEN ∧
    (cb.state = CBState.OPEN →
      cb.failure_threshold ≤ cb.failure_count ∧
      cb.last_failure_time.isSome = true) ∧
    (cb.state = CBState.CLOSED →
      cb.failure_count < cb.failure_threshold ∨ cb.failure_count = 0) ∧
    cb.failure_threshold = ft := by
  induction h with
  | init => simp [CircuitBreaker.init]
  | step now op hcb ih =>
    obtain ⟨ih1, ih2, ih3, ih4⟩ := ih
    rename_i cb0 α ε
    rcases hst : cb0.state with _ | _ | _
    · -- CLOSED: the gate lets the call through unchanged
      rcases op with e | v
      · by_cases hth : cb0.failure_count + 1 ≥ ft
        · simp [CircuitBreaker.call, CircuitBreaker.gateCheck, hst,
            CircuitBreaker.record_failure, hth, ih4]
        · simp [CircuitBreaker.call, CircuitBreaker.gateCheck, hst,
            CircuitBreaker.record_failure, hth, ih4]
          omega
      · simp [CircuitBreaker.call, CircuitBreaker.gateCheck, hst,
          CircuitBreaker.reset, ih4]
    · -- OPEN: either blocked (state unchanged) or a HALF-OPEN probe
      obtain ⟨hfc, hsome⟩ := ih2 hst
      by_cases hel : now - cb0.last_failure_time.getD 0 > cb0.recovery_timeout
      · rcases op with e | v
        · have hth : cb0.failure_count + 1 ≥ ft := by omega
          simp [CircuitBreaker.call, CircuitBreaker.gateCheck, hst, hel,
            CircuitBreaker.record_failure, hth, ih4]
        · simp [CircuitBreaker.call, CircuitBreaker.gateCheck, hst, hel,
            CircuitBreaker.reset, ih4]
      · simp [CircuitBreaker.call, CircuitBreaker.gateCheck, hst, hel,
          hfc, hsome, ih4]
        omega
    · exact absurd hst ih1

/-- A fresh breaker with threshold 3 after a single failing call at time 0
(used as a concrete reachable state). -/
def cbOneFailure : CircuitBreaker :=
  ((CircuitBreaker.init 3 5).call 0 (Except.error () : Except Unit Unit)).2

/-- A breaker with threshold 1 after one failing call at time 0: it is OPEN
with `last_failure_time = 0` (a concrete reachable OPEN state). -/
def cbOpenEx : CircuitBreaker :=
  ((CircuitBreaker.init 1 5).call 0 (Except.error () : Except Unit Unit)).2

/-- The breaker state after one failing `call` at time `t` with error `e`
(the value type of the operation is irrelevant to the post-state). -/
def failCall {ε : Type} (cb : CircuitBreaker) (t : ℚ) (e : ε) :
    CircuitBreaker :=
  (cb.call t (Except.error e : Except ε Unit)).2

/-- Claim C1: with `failure_threshold = 3`, three consecutive failing calls
drive `state` from CLOSED to OPEN, and a fourth call made before the
recovery timeout has elapsed since the last failure returns the
circuit-open rejection with the breaker unchanged, for every possible
operation outcome (so the operation is never consulted). -/
theorem C1_threshold_trip {α ε : Type} (rt t1 t2 t3 t4 : ℚ)
    (e1 e2 e3 : ε) (op : Except ε α) (h : t4 - t3 < rt) :
    (CircuitBreaker.init 3 rt).state = CBState.CLOSED ∧
    (failCall (CircuitBreaker.init 3 rt) t1 e1).state = CBState.CLOSED ∧
    (failCall (failCall (CircuitBreaker.init 3 rt) t1 e1) t2 e2).state
      = CBState.CLOSED ∧
    (failCall (failCall (failCall (CircuitBreaker.init 3 rt) t1 e1) t2 e2)
      t3 e3).state = CBState.OPEN ∧
    (failCall (failCall (failCall (CircuitBreaker.init 3 rt) t1 e1) t2 e2)
        t3 e3).call t4 op
      = (CBResult.blocked,
         failCall (failCall (failCall (CircuitBreaker.init 3 rt) t1 e1)
           t2 e2) t3 e3) := by
  have hng : ¬ (t4 - t3 > rt) := by linarith
  refine ⟨rfl, rfl, rfl, rfl, ?_⟩
  have h3 : failCall (failCall (failCall (CircuitBreaker.init 3 rt) t1 e1)
      t2 e2) t3 e3 = ⟨3, rt, 3, some t3, CBState.OPEN⟩ := rfl
  rw [h3]
  simp [CircuitBreaker.call, CircuitBreaker.gateCheck, hng]

/-- Witness for C1 at `rt = 5`, failure times 0, 1, 2 and a fourth call at
time 3 (elapsed 1 < 5). -/
theorem C1_threshold_trip_witness :
    ((3 : ℚ) - 2 < 5) ∧
    ((CircuitBreaker.init 3 5).state = CBState.CLOSED ∧
     (failCall (CircuitBreaker.init 3 5) 0 ()).state = CBState.CLOSED ∧
     (failCall (failCall (CircuitBreaker.init 3 5) 0 ()) 1 ()).state
       = CBState.CLOSED ∧
     (failCall (failCall (failCall (CircuitBreaker.init 3 5) 0 ()) 1 ())
       2 ()).state = CBState.OPEN ∧
     (failCall (failCall (failCall (CircuitBreaker.init 3 5) 0 ()) 1 ())
         2 ()).call 3 (Except.ok () : Except Unit Unit)
       = (CBResult.blocked,
          failCall (failCall (failCall (CircuitBreaker.init 3 5) 0 ()) 1 ())
            2 ())) :=
  ⟨by norm_num,
   C1_threshold_trip 5 0 1 2 3 () () () (Except.ok ()) (by norm_num)⟩

/-- Claim C2: for a reachable breaker in OPEN state, once the recovery
timeout has strictly elapsed since the last recorded failure, the next call
moves the gate to HALF-OPEN and invokes the operation; a succeeding probe
yields CLOSED with `failure_count = 0`; a failing probe re-raises, returns
the state to OPEN and refreshes `last_failure_time`. -/
theorem C2_recovery {α ε : Type} (ft : Nat) (rt : ℚ) (cb : CircuitBreaker)
    (now t : ℚ) (h : Reachable ft rt cb) (hs : cb.state = CBState.OPEN)
    (hl : cb.last_failure_time = some t)
    (he : now - t > cb.recovery_timeout) :
    (∃ cb1, cb.gateCheck now = some cb1 ∧ cb1.state = CBState.HALFOPEN) ∧
    (∀ v : α, (cb.call now (Except.ok v : Except ε α)).1 = CBResult.ok v ∧
      (cb.call now (Except.ok v : Except ε α)).2.state = CBState.CLOSED ∧
      (cb.call now (Except.ok v : Except ε α)).2.failure_count = 0) ∧
    (∀ e : ε, (cb.call now (Except.error e : Except ε α)).1 = CBResult.err e ∧
      (cb.call now (Except.error e : Except ε α)).2.state = CBState.OPEN ∧
      (cb.call now (Except.error e : Except ε α)).2.last_failure_time
        = some now) := by
  obtain ⟨-, h2, -, -⟩ := reachable_invariant ft rt cb h
  obtain ⟨hfc, -⟩ := h2 hs
  have hel : now - cb.last_failure_time.getD 0 > cb.recovery_timeout := by
    rw [hl]
    exact he
  refine ⟨⟨{ cb with state := CBState.HALFOPEN }, ?_, rfl⟩, ?_, ?_⟩
  · simp [CircuitBreaker.gateCheck, hs, hel]
  · intro v
    simp [CircuitBreaker.call, CircuitBreaker.gateCheck, hs, hel,
      CircuitBreaker.reset]
  · intro e
    have hth : cb.failure_count + 1 ≥ cb.failure_threshold := by omega
    simp [CircuitBreaker.call, CircuitBreaker.gateCheck, hs, hel,
      CircuitBreaker.record_failure, hth]

/-- Witness for C2 on the concrete OPEN breaker `cbOpenEx` probed at
time 10 (elapsed 10 > 5), for both a succeeding and a failing probe. -/
theorem C2_recovery_witness :
    cbOpenEx.state = CBState.OPEN ∧
    ((10 : ℚ) - 0 > cbOpenEx.recovery_timeout) ∧
    (cbOpenEx.call 10 (Except.ok () : Except Unit Unit)).2.state
      = CBState.CLOSED ∧
    (cbOpenEx.call 10 (Except.ok () : Except Unit Unit)).2.failure_count
      = 0 ∧
    (cbOpenEx.call 10 (Except.error () : Except Unit Unit)).2.state
      = CBState.OPEN ∧
    (cbOpenEx.call 10 (Except.error () : Except Unit Unit)).2.last_failure_time
      = some 10 := by
  have hr : Reachable 1 5 cbOpenEx :=
    Reachable.step 0 (Except.error () : Except Unit Unit) Reachable.init
  have he : (10 : ℚ) - 0 > cbOpenEx.recovery_timeout := by
    show (10 : ℚ) - 0 > (5 : ℚ)
    norm_num
  have h := @C2_recovery Unit Unit 1 5 cbOpenEx 10 0 hr rfl rfl he
  exact ⟨rfl, he, (h.2.1 ()).2.1, (h.2.1 ()).2.2,
    (h.2.2 ()).2.1, (h.2.2 ()).2.2⟩

/-- Claim C3 as stated is false on the code: a single failing call on a
fresh breaker with threshold 3 leaves the state CLOSED while
`failure_count = 1` (the counter accumulates while CLOSED; that is how the
threshold can ever be reached). -/
theorem C3_closed_zero_counterexample :
    Reachable 3 5 cbOneFailure ∧
    cbOneFailure.state = CBState.CLOSED ∧
    cbOneFailure.failure_count = 1 ∧
    ¬ (cbOneFailure.failure_count = 0) :=
  ⟨Reachable.step 0 (Except.error () : Except Unit Unit) Reachable.init,
   rfl, rfl, by decide⟩

/-- Amended C3: for every reachable breaker with a positive threshold,
CLOSED state implies the failure counter is strictly below the threshold
(not necessarily zero). -/
theorem C3_closed_below_threshold (ft : Nat) (rt : ℚ) (cb : CircuitBreaker)
    (hft : 1 ≤ ft) (h : Reachable ft rt cb)
    (hc : cb.state = CBState.CLOSED) :
    cb.failure_count < ft := by
  obtain ⟨-, -, h3, h4⟩ := reachable_invariant ft rt cb h
  rcases h3 hc with hlt | hz <;> omega

/-- Witness for the amended C3 on the concrete reachable CLOSED breaker
`cbOneFailure` (threshold 3, one recorded failure). -/
theorem C3_closed_below_threshold_witness :
    (1 ≤ 3) ∧ cbOneFailure.failure_count < 3 :=
  ⟨by decide,
   C3_closed_below_threshold 3 5 cbOneFailure (by decide)
     (Reachable.step 0 (Except.error () : Except Unit Unit) Reachable.init)
     rfl⟩

/-- Claim C9: when the gate lets a failing operation run, `call` re-raises
exactly the operation's own error after `_record_failure` bookkeeping; the
blocked outcome is synthesized precisely when the gate rejects, in which
case the breaker is unchanged and the operation is never consulted. -/
theorem C9_error_propagation {α ε : Type} (cb : CircuitBreaker) (now : ℚ)
    (op : Except ε α) :
    (∀ (e : ε) (cb1 : CircuitBreaker), op = Except.error e →
      cb.gateCheck now = some cb1 →
      (cb.call now op).1 = CBResult.err e ∧
      (cb.call now op).2 = cb1.record_failure now) ∧
    (cb.gateCheck now = none →
      (cb.call now op).1 = CBResult.blocked ∧ (cb.call now op).2 = cb) ∧
    ((cb.call now op).1 = CBResult.blocked → cb.gateCheck now = none) := by
  refine ⟨?_, ?_, ?_⟩
  · rintro e cb1 rfl hg
    simp [CircuitBreaker.call, hg]
  · intro hg
    simp [CircuitBreaker.call, hg]
  · intro hb
    rcases hg : cb.gateCheck now with _ | cb1
    · rfl
    · rcases op with e | v
      · simp [CircuitBreaker.call, hg] at hb
      · simp [CircuitBreaker.call, hg] at hb

/-- Witness for C9: a failing call on a fresh breaker re-raises the error
and leaves exactly the `_record_failure` state. -/
theorem C9_error_propagation_witness :
    (CircuitBreaker.init 3 5).gateCheck 0 = some (CircuitBreaker.init 3 5) ∧
    ((CircuitBreaker.init 3 5).call 0
      (Except.error () : Except Unit Unit)).1 = CBResult.err () ∧
    ((CircuitBreaker.init 3 5).call 0
      (Except.error () : Except Unit Unit)).2 =
      (CircuitBreaker.init 3 5).record_failure 0 := by
  have h := @C9_error_propagation Unit Unit (CircuitBreaker.init 3 5) 0
    (Except.error ())
  have h1 := h.1 () (CircuitBreaker.init 3 5) rfl rfl
  exact ⟨rfl, h1.1, h1.2⟩

/-- Claim C10: after every completed `call` (on any reachable breaker) the
state is CLOSED or OPEN, never HALF-OPEN; HALF-OPEN only exists transiently
inside a call, between the gate and the probe bookkeeping. -/
theorem C10_no_halfopen_between_calls (ft : Nat) (rt : ℚ)
    (cb : CircuitBreaker) (h : Reachable ft rt cb) :
    cb.state = CBState.CLOSED ∨ cb.state = CBState.OPEN := by
  obtain ⟨h1, -, -, -⟩ := reachable_invariant ft rt cb h
  cases hs : cb.state with
  | CLOSED => exact Or.inl rfl
  | OPEN => exact Or.inr rfl
  | HALFOPEN => exact absurd hs h1

/-- Witness for C10 on the concrete reachable OPEN breaker `cbOpenEx`. -/
theorem C10_no_halfopen_between_calls_witness :
    cbOpenEx.state = CBState.CLOSED ∨ cbOpenEx.state = CBState.OPEN :=
  C10_no_halfopen_between_calls 1 5 cbOpenEx
    (Reachable.step 0 (Except.error () : Except Unit Unit) Reachable.init)

end CircuitBreakerPattern

namespace FaultTolerance

/-- JSON-like payloads: the decoded `response.json()` values and the
hard-coded fallback dict. -/
inductive JsonVal
  | str (s : String)
  | arr (xs : List JsonVal)
  | obj (fields : List (String × JsonVal))

/-- The exception classes distinguished by the handlers of
`fetch_and_process_data`: `requests.RequestException` (transport and bad
status codes), `TimeoutError`, and every other exception class. -/
inductive PyExc
  | requestException
  | timeoutError
  | otherError
deriving DecidableEq, Repr

/-- One execution of the body of the `with timeout(...)` block: the wall
time it took and whether it returned a decoded payload or raised. -/
structure AttemptRun where
  elapsed : ℚ
  outcome : Except PyExc JsonVal

/-- The `timeout` context manager (lines 17-27): it does not interrupt the
body; only when the body has already raised and the measured elapsed time
strictly exceeds `seconds` does it replace the exception with
`TimeoutError`.  A body that returns normally is passed through unchanged,
however long it took. -/
def timeoutWrap (seconds : ℚ) (run : AttemptRun) : Except PyExc JsonVal :=
  match run.outcome with
  | Except.ok v => Except.ok v
  | Except.error e =>
    if run.elapsed > seconds then Except.error PyExc.timeoutError
    else Except.error e

/-- The retryable classes of the first handler,
`except (requests.RequestException, TimeoutError)` (line 47); every other
exception falls to the `except Exception` handler (line 54). -/
def retryable : PyExc → Bool
  | PyExc.requestException => true
  | PyExc.timeoutError => true
  | PyExc.otherError => false

/-- `fallback_data = {"status": "degraded", "data": []}` (line 39). -/
def fallback_data : JsonVal :=
  JsonVal.obj [("status", JsonVal.str "degraded"), ("data", JsonVal.arr [])]

/-- What one call of `fetch_and_process_data` did: the returned value, how
many times the wrapped operation body was started, and the list of
`time.sleep` durations (in seconds). -/
structure ExecResult where
  result : JsonVal
  invocations : Nat
  sleeps : List Nat

/-- The `while attempt < max_retries` loop of `fetch_and_process_data`
(lines 40-56): run the body under `timeout`, return the payload on success,
increment `attempt` and either return the fallback (when exhausted) or
sleep `2 ** attempt` on a retryable failure, and return the fallback at
once on any other failure.  `runs i` is the i-th execution of the body;
`invocations` and `sleeps` record the observable effects. -/
def retryLoop (runs : Nat → AttemptRun) (timeout_seconds : ℚ)
    (max_retries : Nat) (attempt : Nat) (invocations : Nat)
    (sleeps : List Nat) : ExecResult :=
  if attempt < max_retries then
    match timeoutWrap timeout_seconds (runs invocations) with
    | Except.ok v => ⟨v, invocations + 1, sleeps⟩
    | Except.error e =>
      if retryable e then
        if attempt + 1 = max_retries then
          ⟨fallback_data, invocations + 1, sleeps⟩
        else
          retryLoop runs timeout_seconds max_retries (attempt + 1)
            (invocations + 1) (sleeps ++ [2 ^ (attempt + 1)])
      else ⟨fallback_data, invocations + 1, sleeps⟩
  else ⟨fallback_data, invocations, sleeps⟩
termination_by max_retries - attempt
decreasing_by omega

/-- `fetch_and_process_data` (lines 28-57): `attempt` starts at 0 and the
final `return fallback_data` (line 57) covers `max_retries = 0`. -/
def fetch_and_process_data (runs : Nat → AttemptRun) (max_retries : Nat)
    (timeout_seconds : ℚ) : ExecResult :=
  retryLoop runs timeout_seconds max_retries 0 0 []

/-- Complete behaviour of the retry loop when every started attempt
classifies as a retryable failure: it returns the fallback after exactly
`max_retries - attempt` further invocations, having slept
`2^(attempt+1), 2^(attempt+2), …` between consecutive tries. -/
theorem retryLoop_all_retryable (runs : Nat → AttemptRun) (ts : ℚ)
    (mr : Nat)
    (h : ∀ i, ∃ e, timeoutWrap ts (runs i) = Except.error e ∧
      retryable e = true) :
    ∀ (n attempt invocations : Nat) (sleeps : List Nat),
      mr - attempt = n →
      retryLoop runs ts mr attempt invocations sleeps =
        ⟨fallback_data, invocations + (mr - attempt),
         sleeps ++ (List.range (mr - attempt - 1)).map
           (fun k => 2 ^ (attempt + k + 1))⟩ := by
  intro n
  induction n with
  | zero =>
    intro attempt inv sleeps hn
    have hge : ¬ attempt < mr := by omega
    rw [retryLoop]
    simp [hge, hn]
  | succ n ih =>
    intro attempt inv sleeps hn
    have hlt : attempt < mr := by omega
    obtain ⟨e, he, hre⟩ := h inv
    rw [retryLoop, if_pos hlt, he]
    simp only [hre, if_true]
    by_cases hend : attempt + 1 = mr
    · rw [if_pos hend]
      have h1 : mr - attempt = 1 := by omega
      simp [h1]
    · rw [if_neg hend,
        ih (attempt + 1) (inv + 1) (sleeps ++ [2 ^ (attempt + 1)]) (by omega)]
      have hinv : inv + 1 + (mr - (attempt + 1)) = inv + (mr - attempt) := by
        omega
      have hlen : mr - attempt - 1 = (mr - (attempt + 1) - 1) + 1 := by omega
      have hfun : ((fun k => 2 ^ (attempt + k + 1)) ∘ Nat.succ) =
          (fun k => 2 ^ (attempt + 1 + k + 1)) := by
        funext k
        simp only [Function.comp]
        congr 1
        omega
      rw [hinv, hlen, List.range_succ_eq_map, List.map_cons, List.map_map,
        hfun]
      simp

/-- A run whose every attempt fails with a transport error after 1 second
(persistently retryable). -/
def constFailRuns : Nat → AttemptRun :=
  fun _ => ⟨1, Except.error PyExc.requestException⟩

/-- A run whose first attempt raises an exception outside the retryable
classes, within the deadline. -/
def fatalRuns : Nat → AttemptRun :=
  fun _ => ⟨1, Except.error PyExc.otherError⟩

/-- A run whose body returns a payload only after the deadline has
passed. -/
def lateSuccess : AttemptRun := ⟨6, Except.ok (JsonVal.str "ok")⟩

/-- Claim C4: when every attempt fails with a retryable error, the call
returns exactly the hard-coded fallback dict
`{"status": "degraded", "data": []}`; totality (never raising past the
boundary) is expressed by `fetch_and_process_data` returning a plain
`ExecResult` for every input. -/
theorem C4_total_fallback (runs : Nat → AttemptRun) (ts : ℚ) (mr : Nat)
    (h : ∀ i, ∃ e, timeoutWrap ts (runs i) = Except.error e ∧
      retryable e = true) :
    (fetch_and_process_data runs mr ts).result = fallback_data := by
  rw [fetch_and_process_data,
    retryLoop_all_retryable runs ts mr h (mr - 0) 0 0 [] rfl]

/-- Witness for C4: three retryable transport failures with
`max_retries = 3` yield the fallback dict. -/
theorem C4_total_fallback_witness :
    (∀ i : Nat, ∃ e, timeoutWrap 5 (constFailRuns i) = Except.error e ∧
      retryable e = true) ∧
    (fetch_and_process_data constFailRuns 3 5).result = fallback_data :=
  ⟨fun _ => ⟨PyExc.requestException, rfl, rfl⟩,
   C4_total_fallback constFailRuns 5 3
     (fun _ => ⟨PyExc.requestException, rfl, rfl⟩)⟩

/-- Claim C5: with `max_retries = n`, a persistently retryable failure
causes at most `n` invocations of the operation body. -/
theorem C5_bounded_attempts (runs : Nat → AttemptRun) (ts : ℚ) (n : Nat)
    (h : ∀ i, ∃ e, timeoutWrap ts (runs i) = Except.error e ∧
      retryable e = true) :
    (fetch_and_process_data runs n ts).invocations ≤ n := by
  rw [fetch_and_process_data,
    retryLoop_all_retryable runs ts n h (n - 0) 0 0 [] rfl]
  simp

/-- Witness for C5 at `n = 3` with persistent transport failures. -/
theorem C5_bounded_attempts_witness :
    (∀ i : Nat, ∃ e, timeoutWrap 5 (constFailRuns i) = Except.error e ∧
      retryable e = true) ∧
    (fetch_and_process_data constFailRuns 3 5).invocations ≤ 3 :=
  ⟨fun _ => ⟨PyExc.requestException, rfl, rfl⟩,
   C5_bounded_attempts constFailRuns 5 3
     (fun _ => ⟨PyExc.requestException, rfl, rfl⟩)⟩

/-- Claim C6: a non-retryable classified failure on the first attempt
returns the fallback at once: exactly one invocation and no backoff
sleep. -/
theorem C6_failfast_nonretryable (runs : Nat → AttemptRun) (ts : ℚ)
    (mr : Nat) (e : PyExc) (hmr : 1 ≤ mr)
    (hclass : timeoutWrap ts (runs 0) = Except.error e)
    (hnr : retryable e = false) :
    fetch_and_process_data runs mr ts =
      ⟨fallback_data, 1, []⟩ := by
  rw [fetch_and_process_data, retryLoop, if_pos (by omega : 0 < mr), hclass]
  simp [hnr]

/-- Witness for C6: an unexpected (non-retryable) exception on the first
attempt with `max_retries = 3`. -/
theorem C6_failfast_nonretryable_witness :
    (1 ≤ 3) ∧
    timeoutWrap 5 (fatalRuns 0) = Except.error PyExc.otherError ∧
    retryable PyExc.otherError = false ∧
    fetch_and_process_data fatalRuns 3 5 = ⟨fallback_data, 1, []⟩ :=
  ⟨by decide, rfl, rfl,
   C6_failfast_nonretryable fatalRuns 5 3 PyExc.otherError (by decide)
     rfl rfl⟩

/-- Claim C7 as stated is false on the code: the `timeout` context manager
does not enforce a deadline.  A body that returns normally after the
deadline (6 s of work under a 5 s limit) is passed through as a success,
not classified as `TimeoutError`. -/
theorem C7_deadline_counterexample :
    lateSuccess.elapsed > 5 ∧
    timeoutWrap 5 lateSuccess = Except.ok (JsonVal.str "ok") ∧
    timeoutWrap 5 lateSuccess ≠ Except.error PyExc.timeoutError := by
  refine ⟨by norm_num [lateSuccess], rfl, ?_⟩
  simp [timeoutWrap, lateSuccess]

/-- Amended C7: an attempt's outcome is classified as `TimeoutError`
exactly when the body raised an exception and either the measured elapsed
time strictly exceeds `timeout_seconds` or the exception already was a
`TimeoutError`; a body that completes normally is returned unchanged no
matter how long it took; `TimeoutError` is retryable. -/
theorem C7_timeout_reclassification (seconds : ℚ) (run : AttemptRun) :
    (timeoutWrap seconds run = Except.error PyExc.timeoutError ↔
      ∃ e, run.outcome = Except.error e ∧
        (run.elapsed > seconds ∨ e = PyExc.timeoutError)) ∧
    (∀ v, run.outcome = Except.ok v →
      timeoutWrap seconds run = Except.ok v) ∧
    retryable PyExc.timeoutError = true := by
  obtain ⟨el, out⟩ := run
  refine ⟨?_, ?_, rfl⟩
  · rcases out with e | v
    · by_cases hel : el > seconds
      · simp [timeoutWrap, hel]
      · simp [timeoutWrap, hel]
    · simp [timeoutWrap]
  · rintro v rfl
    rfl

/-- Witness for the amended C7: a slow failing attempt (9 s under a 5 s
limit) is reclassified as `TimeoutError` even though its exception class
was non-retryable, and a slow successful attempt is passed through. -/
theorem C7_timeout_reclassification_witness :
    timeoutWrap 5 (⟨9, Except.error PyExc.otherError⟩ : AttemptRun)
      = Except.error PyExc.timeoutError ∧
    timeoutWrap 5 (⟨9, Except.ok (JsonVal.arr [])⟩ : AttemptRun)
      = Except.ok (JsonVal.arr []) :=
  ⟨(C7_timeout_reclassification 5 ⟨9, Except.error PyExc.otherError⟩).1.mpr
      ⟨PyExc.otherError, rfl, Or.inl (by norm_num)⟩,
   (C7_timeout_reclassification 5 ⟨9, Except.ok (JsonVal.arr [])⟩).2.1
      (JsonVal.arr []) rfl⟩

/-- Claim C8: under persistently retryable failures the sleeps performed
are exactly `2^1, 2^2, …, 2^(max_retries-1)` — the delay before attempt
`k+1` is `2^k` time units, with no upper cap. -/
theorem C8_backoff_schedule (runs : Nat → AttemptRun) (ts : ℚ) (mr : Nat)
    (h : ∀ i, ∃ e, timeoutWrap ts (runs i) = Except.error e ∧
      retryable e = true) :
    (fetch_and_process_data runs mr ts).sleeps =
      (List.range (mr - 1)).map (fun k => 2 ^ (k + 1)) := by
  rw [fetch_and_process_data,
    retryLoop_all_retryable runs ts mr h (mr - 0) 0 0 [] rfl]
  simp

/-- Witness for C8 at `max_retries = 3`: the two backoff sleeps are
`2^1 = 2` and `2^2 = 4`. -/
theorem C8_backoff_schedule_witness :
    (∀ i : Nat, ∃ e, timeoutWrap 5 (constFailRuns i) = Except.error e ∧
      retryable e = true) ∧
    (fetch_and_process_data constFailRuns 3 5).sleeps =
      (List.range 2).map (fun k => 2 ^ (k + 1)) :=
  ⟨fun _ => ⟨PyExc.requestException, rfl, rfl⟩,
   C8_backoff_schedule constFailRuns 5 3
     (fun _ => ⟨PyExc.requestException, rfl, rfl⟩)⟩

end FaultTolerance
